import Mathlib

/-!
Verification of the session/conversation subsystem of the humanlayer `hld`
daemon: the `ConversationStore` data model and operations, and the RPC
request handlers `HandleGetConversation` / `HandleGetSessionState`.

The repository excerpt ships only the handler tests
(`hld/rpc/handlers_test.go`); the handler and store implementations are
modelled from the specification (each such definition is marked
`Modelled from the spec:`), kept consistent with the shapes and assertions
the tests exercise.
-/

namespace HLD

/-- Session lifecycle status. Mirrors `store.SessionStatus` in the Go code
(`SessionStatusCompleted`, `SessionStatusFailed` appear in the tests);
the spec's enum is \x7brunning, completed, failed\x7d. -/
inductive SessionStatus
  | running
  | completed
  | failed
deriving DecidableEq, Repr

/-- A status is terminal once non-running (spec section 3). -/
def SessionStatus.isTerminal : SessionStatus → Bool
  | .running => false
  | .completed => true
  | .failed => true

/-- Modelled from the spec: the `Session` record of section 3 / `store.Session`
used by the tests. Timestamps are modelled as naturals; the optional
numeric/timestamp fields (`completed_at`, `cost_usd`, `total_tokens`,
`duration_ms`) are genuine options, per the spec's data model. `cost_usd`
is modelled as a rational. -/
structure Session where
  id : String
  runId : String
  claudeSessionId : String
  status : SessionStatus
  query : String
  model : String
  workingDir : String
  createdAt : Nat
  lastActivityAt : Nat
  completedAt : Option Nat
  costUsd : Option ℚ
  totalTokens : Option Nat
  durationMs : Option Nat
  errorMessage : String
deriving DecidableEq, Repr

/-- Conversation event kinds; `store.EventTypeMessage` and
`store.EventTypeToolCall` appear in the tests (spec: enum is extendable). -/
inductive EventType
  | message
  | toolCall
deriving DecidableEq, Repr

/-- Modelled from the spec: the `ConversationEvent` record of section 3 /
`store.ConversationEvent` used by the tests. `id` and `sequence` are
assigned by the store on append. -/
structure ConversationEvent where
  id : Nat
  sessionId : String
  claudeSessionId : String
  sequence : Nat
  eventType : EventType
  createdAt : Nat
  role : String
  content : String
  toolId : String
  toolName : String
  toolInputJson : String
deriving DecidableEq, Repr

/-- Store-level error taxonomy (spec section 7): `Conflict`, `NotFound`,
`InvalidState`, and other internal store failures carrying a message. -/
inductive StoreError
  | conflict
  | notFound
  | invalidState
  | internalErr (msg : String)
deriving DecidableEq, Repr

/-- Human-readable message of a store error, used when a handler wraps the
error with context. -/
def StoreError.message : StoreError → String
  | .conflict => "conflict"
  | .notFound => "not found"
  | .invalidState => "invalid state"
  | .internalErr m => m

/-- Completion fields passed to `UpdateSessionStatus` (spec section 4.1):
set at finalization. -/
structure CompletionFields where
  completedAt : Option Nat
  costUsd : Option ℚ
  totalTokens : Option Nat
  durationMs : Option Nat
  errorMessage : String
deriving DecidableEq, Repr

/-- Modelled from the spec: the persistent state owned by the
`ConversationStore` backend (not in the excerpt): the session records and
the committed events in append order. -/
structure StoreState where
  sessions : List Session
  events : List ConversationEvent
deriving DecidableEq, Repr

/-- The empty store. -/
def StoreState.init : StoreState := ⟨[], []⟩

/-- Look up a session record by its primary id. -/
def findSession (st : StoreState) (sid : String) : Option Session :=
  st.sessions.find? (fun s => s.id == sid)

/-- All committed events of a session, in committed (append) order. -/
def eventsFor (st : StoreState) (sid : String) : List ConversationEvent :=
  st.events.filter (fun e => e.sessionId == sid)

/-- All committed events carrying a given `claude_session_id`, in committed
order (spec section 4.1: a single consistent ascending order across the
sessions sharing that runtime-assigned id). -/
def claudeEventsFor (st : StoreState) (cid : String) : List ConversationEvent :=
  st.events.filter (fun e => e.claudeSessionId == cid)

/-- Next per-session sequence number: strictly increasing, starting at 1
(spec section 3). -/
def nextSequence (st : StoreState) (sid : String) : Nat :=
  (eventsFor st sid).length + 1

/-- Modelled from the spec: `CreateSession(session)` inserts a new session
record; fails with `Conflict` if `id` already exists (spec section 4.1). -/
def CreateSession (st : StoreState) (s : Session) : Except StoreError StoreState :=
  match findSession st s.id with
  | some _ => .error .conflict
  | none => .ok { st with sessions := st.sessions ++ [s] }

/-- Modelled from the spec: `AppendEvent(event)` assigns the next `sequence`
for `event.session_id` atomically with the write, assigns the globally
increasing event `id`, and bumps the session's `last_activity_at`; fails
with `NotFound` if the session does not exist and with `InvalidState` if
the session is already terminal (spec sections 3 and 4.1). -/
def AppendEvent (st : StoreState) (e : ConversationEvent) : Except StoreError StoreState :=
  match findSession st e.sessionId with
  | none => .error .notFound
  | some s =>
    if s.status.isTerminal then .error .invalidState
    else
      .ok { st with
        events := st.events ++
          [{ e with id := st.events.length + 1, sequence := nextSequence st e.sessionId }],
        sessions := st.sessions.map (fun t =>
          if t.id == e.sessionId then { t with lastActivityAt := e.createdAt } else t) }

/-- Modelled from the spec: `UpdateSessionStatus(sessionID, status,
completionFields)` transitions status and populates the completion fields;
fails with `NotFound` if the session is absent and with `InvalidState` on
an attempted transition out of a terminal state (spec section 4.1). -/
def UpdateSessionStatus (st : StoreState) (sid : String) (status : SessionStatus)
    (cf : CompletionFields) : Except StoreError StoreState :=
  match findSession st sid with
  | none => .error .notFound
  | some s =>
    if s.status.isTerminal then .error .invalidState
    else
      .ok { st with sessions := st.sessions.map (fun t =>
        if t.id == sid then
          { t with status := status, completedAt := cf.completedAt,
                   costUsd := cf.costUsd, totalTokens := cf.totalTokens,
                   durationMs := cf.durationMs, errorMessage := cf.errorMessage }
        else t) }

/-- Modelled from the spec: `GetSession(sessionID)` fails with `NotFound`
if absent (spec section 4.1). -/
def GetSession (st : StoreState) (sid : String) : Except StoreError Session :=
  match findSession st sid with
  | none => .error .notFound
  | some s => .ok s

/-- Modelled from the spec: `GetSessionConversation(sessionID)` returns all
events for the session ordered by ascending `sequence`; empty result (not
an error) if the session exists but has no events; `NotFound` if the
session itself does not exist (spec section 4.1). -/
def GetSessionConversation (st : StoreState) (sid : String) :
    Except StoreError (List ConversationEvent) :=
  match findSession st sid with
  | none => .error .notFound
  | some _ => .ok (eventsFor st sid)

/-- Modelled from the spec: `GetConversation(claudeSessionID)` resolves the
same event stream via the secondary key, aggregating events from the
sessions sharing that runtime-assigned id in one consistent committed
order (spec section 4.1). -/
def GetConversation (st : StoreState) (cid : String) :
    Except StoreError (List ConversationEvent) :=
  .ok (claudeEventsFor st cid)

/-- The narrow `ConversationStore` read interface the handlers depend on
(spec sections 4.3, 5 and 9: the store boundary is an explicit interface so
a test double can stand in for it; the tests mock exactly these three
methods). -/
structure ConversationStore where
  getSessionConversation : String → Except StoreError (List ConversationEvent)
  getConversation : String → Except StoreError (List ConversationEvent)
  getSession : String → Except StoreError Session

/-- The persistent backend viewed through the read interface. -/
def StoreState.asStore (st : StoreState) : ConversationStore where
  getSessionConversation := GetSessionConversation st
  getConversation := GetConversation st
  getSession := GetSession st

/-- `GetConversationRequest` from the Go rpc package (fields `SessionID`,
`ClaudeSessionID`, both optional on the wire; JSON decoding leaves a
missing field empty). -/
structure GetConversationRequest where
  sessionId : String
  claudeSessionId : String
deriving DecidableEq, Repr

/-- `GetConversationResponse` from the Go rpc package: the ordered list of
events, exposed as-is. -/
structure GetConversationResponse where
  events : List ConversationEvent
deriving DecidableEq, Repr

/-- `GetSessionStateRequest` from the Go rpc package (required
`session_id`). -/
structure GetSessionStateRequest where
  sessionId : String
deriving DecidableEq, Repr

/-- `GetSessionStateResponse` from the Go rpc package: the full session
record. -/
structure GetSessionStateResponse where
  session : Session
deriving DecidableEq, Repr

/-- Handler-level errors: an `InvalidRequest` with its contractual message,
or a store error wrapped with a context prefix, the underlying cause kept
(spec section 7). -/
inductive HandlerError
  | invalidRequest (msg : String)
  | storeError (ctx : String) (cause : StoreError)
deriving DecidableEq, Repr

/-- The human-readable message surfaced to the caller: wrapped store errors
read `<context>: <cause>` (spec section 7). -/
def HandlerError.message : HandlerError → String
  | .invalidRequest m => m
  | .storeError ctx cause => ctx ++ ": " ++ cause.message

/-- A raw request payload after JSON decoding: `none` when the payload
cannot be decoded into the typed request. -/
def Payload (α : Type) : Type := Option α

/-- Modelled from the spec: `HandleGetConversation` (not in the excerpt;
its tests are `TestHandleGetConversation`). Decode failure fails with
`invalid request` before touching the store; with both identifiers empty it
fails with `either session_id or claude_session_id is required`; a present
`session_id` resolves via the store's `GetSessionConversation`, otherwise a
present `claude_session_id` resolves via `GetConversation`; store errors
are wrapped with context; a successful store result is exposed as-is
(spec section 4.3). -/
def HandleGetConversation (cs : ConversationStore)
    (payload : Payload GetConversationRequest) :
    Except HandlerError GetConversationResponse :=
  match payload with
  | none => .error (.invalidRequest "invalid request")
  | some req =>
    if req.sessionId ≠ "" then
      match cs.getSessionConversation req.sessionId with
      | .error e => .error (.storeError "failed to get conversation" e)
      | .ok evs => .ok ⟨evs⟩
    else if req.claudeSessionId ≠ "" then
      match cs.getConversation req.claudeSessionId with
      | .error e => .error (.storeError "failed to get conversation" e)
      | .ok evs => .ok ⟨evs⟩
    else
      .error (.invalidRequest "either session_id or claude_session_id is required")

/-- Modelled from the spec: `HandleGetSessionState` (not in the excerpt;
its tests are `TestHandleGetSessionState`). Decode failure fails with
`invalid request`; an empty `session_id` fails with
`session_id is required`; otherwise the store's `GetSession` is called and
a store error is wrapped as `failed to get session: <cause>`; on success
the full session record is returned (spec section 4.3). -/
def HandleGetSessionState (cs : ConversationStore)
    (payload : Payload GetSessionStateRequest) :
    Except HandlerError GetSessionStateResponse :=
  match payload with
  | none => .error (.invalidRequest "invalid request")
  | some req =>
    if req.sessionId = "" then .error (.invalidRequest "session_id is required")
    else
      match cs.getSession req.sessionId with
      | .error e => .error (.storeError "failed to get session" e)
      | .ok s => .ok ⟨s⟩

/-- `s` contains `pat` as a contiguous substring (the contract phrases of
spec sections 7 and 8 are matched by containment). -/
def containsStr (s pat : String) : Prop :=
  ∃ l r, s.data = l ++ pat.data ++ r

/-- Store states reachable from the empty store through the store's write
operations (spec section 3 lifecycle: create, append, finalize). -/
inductive Reachable : StoreState → Prop
  | init : Reachable StoreState.init
  | create {st st' : StoreState} {s : Session} :
      Reachable st → CreateSession st s = .ok st' → Reachable st'
  | append {st st' : StoreState} {e : ConversationEvent} :
      Reachable st → AppendEvent st e = .ok st' → Reachable st'
  | update {st st' : StoreState} {sid : String} {status : SessionStatus}
      {cf : CompletionFields} :
      Reachable st → UpdateSessionStatus st sid status cf = .ok st' → Reachable st'

/-! Concrete data mirroring the scenarios exercised by the repository's
handler tests (`TestHandleGetConversation`, `TestHandleGetSessionState`). -/

/-- The running session `sess-123` of the conversation tests. -/
def demoSession : Session :=
  { id := "sess-123", runId := "run-456", claudeSessionId := "claude-456",
    status := .running, query := "Help me write a function",
    model := "claude-3-opus", workingDir := "/home/user/project",
    createdAt := 0, lastActivityAt := 0, completedAt := none, costUsd := none,
    totalTokens := none, durationMs := none, errorMessage := "" }

/-- The assistant message of scenario A, as submitted to the store. -/
def demoEvent1 : ConversationEvent :=
  { id := 0, sessionId := "sess-123", claudeSessionId := "claude-456",
    sequence := 0, eventType := .message, createdAt := 1, role := "assistant",
    content := "Hello! How can I help you?", toolId := "", toolName := "",
    toolInputJson := "" }

/-- The `calculator` tool call of scenario A, as submitted to the store. -/
def demoEvent2 : ConversationEvent :=
  { id := 0, sessionId := "sess-123", claudeSessionId := "claude-456",
    sequence := 0, eventType := .toolCall, createdAt := 2, role := "",
    content := "", toolId := "tool-1", toolName := "calculator",
    toolInputJson := "add 1 2" }

/-- The first event as committed (store-assigned id and sequence). -/
def demoStored1 : ConversationEvent := { demoEvent1 with id := 1, sequence := 1 }

/-- The second event as committed. -/
def demoStored2 : ConversationEvent := { demoEvent2 with id := 2, sequence := 2 }

/-- Store holding `sess-123` with no events yet. -/
def demoSt1 : StoreState := ⟨[demoSession], []⟩

/-- Store after committing the first event. -/
def demoSt2 : StoreState :=
  ⟨[{ demoSession with lastActivityAt := 1 }], [demoStored1]⟩

/-- Store after committing both events. -/
def demoSt3 : StoreState :=
  ⟨[{ demoSession with lastActivityAt := 2 }], [demoStored1, demoStored2]⟩

/-- Empty completion fields. -/
def demoCf : CompletionFields := ⟨none, none, none, none, ""⟩

/-- A session already in a terminal state. -/
def demoTermSession : Session :=
  { demoSession with id := "sess-done", status := .completed }

/-- Store holding only the terminal session. -/
def demoTermSt : StoreState := ⟨[demoTermSession], []⟩

/-- An event submitted against the terminal session. -/
def demoTermEvent : ConversationEvent :=
  { demoEvent1 with sessionId := "sess-done" }

/-- The completed session of scenario C (cost, tokens, duration,
completion time all populated). -/
def demoCompleted : Session :=
  { demoSession with
    id := "sess-c", claudeSessionId := "claude-789",
    status := .completed, lastActivityAt := 600, completedAt := some 600,
    costUsd := some (0.05 : ℚ), totalTokens := some 1500,
    durationMs := some 600000 }

/-- The failed session of scenario D. -/
def demoFailed : Session :=
  { demoSession with
    id := "sess-f", runId := "run-error",
    status := .failed, query := "Failed query",
    errorMessage := "Connection timeout" }

/-- Store holding the completed and the failed sessions. -/
def demoStateSt : StoreState := ⟨[demoCompleted, demoFailed], []⟩

/-! Helper lemmas about the effect of each store operation. -/

theorem CreateSession_ok_events {st st' : StoreState} {s : Session}
    (h : CreateSession st s = .ok st') : st'.events = st.events := by
  unfold CreateSession at h
  split at h
  · exact Except.noConfusion h
  · cases h; rfl

theorem UpdateSessionStatus_ok_events {st st' : StoreState} {sid : String}
    {status : SessionStatus} {cf : CompletionFields}
    (h : UpdateSessionStatus st sid status cf = .ok st') : st'.events = st.events := by
  unfold UpdateSessionStatus at h
  split at h
  · exact Except.noConfusion h
  · split at h
    · exact Except.noConfusion h
    · cases h; rfl

theorem AppendEvent_ok_events {st st' : StoreState} {e : ConversationEvent}
    (h : AppendEvent st e = .ok st') :
    st'.events = st.events ++
      [{ e with id := st.events.length + 1, sequence := nextSequence st e.sessionId }] := by
  unfold AppendEvent at h
  split at h
  · exact Except.noConfusion h
  · split at h
    · exact Except.noConfusion h
    · cases h; rfl

theorem AppendEvent_ok_sessions {st st' : StoreState} {e : ConversationEvent}
    (h : AppendEvent st e = .ok st') :
    st'.sessions = st.sessions.map (fun t =>
      if t.id == e.sessionId then { t with lastActivityAt := e.createdAt } else t) := by
  unfold AppendEvent at h
  split at h
  · exact Except.noConfusion h
  · split at h
    · exact Except.noConfusion h
    · cases h; rfl

theorem eventsFor_of_events_eq {st st' : StoreState} (h : st'.events = st.events)
    (sid : String) : eventsFor st' sid = eventsFor st sid := by
  simp [eventsFor, h]

theorem eventsFor_append_self {st st' : StoreState} {e : ConversationEvent}
    (h : AppendEvent st e = .ok st') :
    eventsFor st' e.sessionId = eventsFor st e.sessionId ++
      [{ e with id := st.events.length + 1, sequence := nextSequence st e.sessionId }] := by
  simp [eventsFor, AppendEvent_ok_events h]

theorem eventsFor_append_other {st st' : StoreState} {e : ConversationEvent}
    (h : AppendEvent st e = .ok st') {sid : String} (hne : sid ≠ e.sessionId) :
    eventsFor st' sid = eventsFor st sid := by
  simp only [eventsFor, AppendEvent_ok_events h, List.filter_append]
  have : (e.sessionId == sid) = false := by
    simp [Ne.symm hne]
  simp [this]

theorem UpdateSessionStatus_of_terminal {st : StoreState} {sid : String}
    {s : Session} (hs : findSession st sid = some s)
    (hterm : s.status.isTerminal = true) (status : SessionStatus)
    (cf : CompletionFields) :
    UpdateSessionStatus st sid status cf = .error .invalidState := by
  unfold UpdateSessionStatus
  rw [hs]
  simp [hterm]

theorem AppendEvent_of_terminal {st : StoreState} {s : Session}
    {e : ConversationEvent} (hs : findSession st e.sessionId = some s)
    (hterm : s.status.isTerminal = true) :
    AppendEvent st e = .error .invalidState := by
  unfold AppendEvent
  rw [hs]
  simp [hterm]

/-- The central store invariant (spec section 3): on every reachable state,
each session's event sequences are bounded by the event count and strictly
ascending in committed order. -/
theorem seq_invariant {st : StoreState} (h : Reachable st) (sid : String) :
    (∀ ev ∈ eventsFor st sid, ev.sequence ≤ (eventsFor st sid).length) ∧
    (eventsFor st sid).Pairwise (fun a b => a.sequence < b.sequence) := by
  induction h with
  | init => simp [eventsFor, StoreState.init]
  | create hr hop ih =>
    rw [eventsFor_of_events_eq (CreateSession_ok_events hop)]
    exact ih
  | update hr hop ih =>
    rw [eventsFor_of_events_eq (UpdateSessionStatus_ok_events hop)]
    exact ih
  | @append st1 st1' e hr hop ih =>
    by_cases hs : sid = e.sessionId
    · subst hs
      rw [eventsFor_append_self hop]
      obtain ⟨ihb, ihp⟩ := ih
      constructor
      · intro ev hev
        rw [List.mem_append] at hev
        rcases hev with hev | hev
        · have := ihb ev hev
          simp only [List.length_append, List.length_cons, List.length_nil]
          omega
        · simp only [List.mem_singleton] at hev
          subst hev
          simp only [nextSequence, List.length_append, List.length_cons,
            List.length_nil]
          omega
      · rw [List.pairwise_append]
        refine ⟨ihp, by simp, ?_⟩
        intro a ha b hb
        simp only [List.mem_singleton] at hb
        subst hb
        have := ihb a ha
        simp only [nextSequence]
        omega
    · rw [eventsFor_append_other hop hs]
      exact ih

/-- The store with only `sess-123` created is reachable. -/
theorem reachable_demoSt1 : Reachable demoSt1 := by
  have hc : CreateSession StoreState.init demoSession = Except.ok demoSt1 := by rfl
  exact Reachable.create Reachable.init hc

/-- The store with both scenario-A events committed is reachable. -/
theorem reachable_demoSt3 : Reachable demoSt3 := by
  have h1 : AppendEvent demoSt1 demoEvent1 = Except.ok demoSt2 := by rfl
  have h2 : AppendEvent demoSt2 demoEvent2 = Except.ok demoSt3 := by rfl
  exact Reachable.append (Reachable.append reachable_demoSt1 h1) h2

/-- C1: for every successfully decoded GetConversation request, a non-empty
`session_id` is resolved through the store's `GetSessionConversation` and an
empty `session_id` with a non-empty `claude_session_id` through the store's
`GetConversation`; on store success the handler returns the store's event
list unchanged (hence same length, same order, and every field of every
event equal), and a store error is wrapped, not swallowed. -/
theorem handleGetConversation_resolves (cs : ConversationStore)
    (req : GetConversationRequest) :
    (req.sessionId ≠ "" → ∀ evs, cs.getSessionConversation req.sessionId = .ok evs →
      HandleGetConversation cs (some req) = .ok ⟨evs⟩) ∧
    (req.sessionId = "" → req.claudeSessionId ≠ "" →
      ∀ evs, cs.getConversation req.claudeSessionId = .ok evs →
      HandleGetConversation cs (some req) = .ok ⟨evs⟩) ∧
    (req.sessionId ≠ "" → ∀ e, cs.getSessionConversation req.sessionId = .error e →
      HandleGetConversation cs (some req) =
        .error (.storeError "failed to get conversation" e)) ∧
    (req.sessionId = "" → req.claudeSessionId ≠ "" →
      ∀ e, cs.getConversation req.claudeSessionId = .error e →
      HandleGetConversation cs (some req) =
        .error (.storeError "failed to get conversation" e)) := by
  refine ⟨?_, ?_, ?_, ?_⟩
  · intro hne evs hok
    simp [HandleGetConversation, hne, hok]
  · intro he hcne evs hok
    simp [HandleGetConversation, he, hcne, hok]
  · intro hne e herr
    simp [HandleGetConversation, hne, herr]
  · intro he hcne e herr
    simp [HandleGetConversation, he, hcne, herr]

/-- Witness for C1: scenario A events come back unchanged through either
lookup key. -/
theorem handleGetConversation_resolves_witness :
    HandleGetConversation demoSt3.asStore (some ⟨"sess-123", ""⟩) =
      .ok ⟨[demoStored1, demoStored2]⟩ ∧
    HandleGetConversation demoSt3.asStore (some ⟨"", "claude-456"⟩) =
      .ok ⟨[demoStored1, demoStored2]⟩ :=
  ⟨(handleGetConversation_resolves demoSt3.asStore ⟨"sess-123", ""⟩).1
      (by decide) [demoStored1, demoStored2] rfl,
   (handleGetConversation_resolves demoSt3.asStore ⟨"", "claude-456"⟩).2.1
      rfl (by decide) [demoStored1, demoStored2] rfl⟩

/-- C2: on every reachable store, `GetSessionConversation` of an existing
session returns exactly that session's committed events (the empty list,
not an error, when there are none) with strictly ascending sequences,
`NotFound` when the session does not exist; each successful `AppendEvent`
grows the session's event count by exactly one (so N appends yield N
events); and `GetConversation` via a `claude_session_id` carried exactly by
that session's events returns the same list. -/
theorem getSessionConversation_complete {st : StoreState} (h : Reachable st)
    (sid : String) :
    (∀ s, findSession st sid = some s →
      GetSessionConversation st sid = .ok (eventsFor st sid)) ∧
    (eventsFor st sid).Pairwise (fun a b => a.sequence < b.sequence) ∧
    (findSession st sid = none →
      GetSessionConversation st sid = .error .notFound) ∧
    (∀ e st', AppendEvent st e = .ok st' →
      (eventsFor st' e.sessionId).length = (eventsFor st e.sessionId).length + 1) ∧
    (∀ cid, (∀ ev ∈ st.events, (ev.claudeSessionId == cid) = (ev.sessionId == sid)) →
      GetConversation st cid = .ok (eventsFor st sid)) := by
  refine ⟨?_, (seq_invariant h sid).2, ?_, ?_, ?_⟩
  · intro s hs
    simp [GetSessionConversation, hs]
  · intro hnone
    simp [GetSessionConversation, hnone]
  · intro e st' hok
    rw [eventsFor_append_self hok]
    simp
  · intro cid hcid
    simp only [GetConversation, claudeEventsFor, eventsFor]
    rw [List.filter_congr hcid]

/-- Witness for C2: on the committed scenario-A store the two events come
back in strictly ascending sequence order, and an unknown session id yields
`NotFound`. -/
theorem getSessionConversation_complete_witness :
    GetSessionConversation demoSt3 "sess-123" = .ok [demoStored1, demoStored2] ∧
    GetSessionConversation demoSt3 "nonexistent" = .error .notFound ∧
    (eventsFor demoSt3 "sess-123").Pairwise (fun a b => a.sequence < b.sequence) ∧
    GetConversation demoSt3 "claude-456" = .ok [demoStored1, demoStored2] := by
  refine ⟨?_, ?_, ?_, ?_⟩
  · exact (getSessionConversation_complete reachable_demoSt3 "sess-123").1
      { demoSession with lastActivityAt := 2 } rfl
  · exact (getSessionConversation_complete reachable_demoSt3 "nonexistent").2.2.1 rfl
  · exact (getSessionConversation_complete reachable_demoSt3 "sess-123").2.1
  · exact (getSessionConversation_complete reachable_demoSt3 "sess-123").2.2.2.2
      "claude-456" (by decide)

/-- C3: when the stored session's optional fields are unknown, the session
record returned by `HandleGetSessionState` carries them as genuinely
absent (`none`), which is distinguishable from any known value, zero
included. -/
theorem getSessionState_optional_absent (cs : ConversationStore)
    (req : GetSessionStateRequest) (s : Session)
    (hreq : req.sessionId ≠ "")
    (hs : cs.getSession req.sessionId = .ok s)
    (hcost : s.costUsd = none) (htok : s.totalTokens = none)
    (hdur : s.durationMs = none) (hcomp : s.completedAt = none) :
    ∃ resp, HandleGetSessionState cs (some req) = .ok resp ∧
      resp.session.costUsd = none ∧ resp.session.totalTokens = none ∧
      resp.session.durationMs = none ∧ resp.session.completedAt = none ∧
      (∀ q : ℚ, resp.session.costUsd ≠ some q) ∧
      (∀ n : Nat, resp.session.totalTokens ≠ some n) ∧
      (∀ n : Nat, resp.session.durationMs ≠ some n) ∧
      (∀ n : Nat, resp.session.completedAt ≠ some n) := by
  refine ⟨⟨s⟩, ?_, hcost, htok, hdur, hcomp, ?_, ?_, ?_, ?_⟩
  · simp [HandleGetSessionState, hreq, hs]
  · intro q hq
    rw [hcost] at hq
    exact Option.noConfusion hq
  · intro n hn
    rw [htok] at hn
    exact Option.noConfusion hn
  · intro n hn
    rw [hdur] at hn
    exact Option.noConfusion hn
  · intro n hn
    rw [hcomp] at hn
    exact Option.noConfusion hn

/-- Witness for C3: the fresh running session surfaces all four optional
fields as absent. -/
theorem getSessionState_optional_absent_witness :
    ∃ resp, HandleGetSessionState demoSt1.asStore (some ⟨"sess-123"⟩) = .ok resp ∧
      resp.session.costUsd = none ∧ resp.session.totalTokens = none ∧
      resp.session.durationMs = none ∧ resp.session.completedAt = none ∧
      (∀ q : ℚ, resp.session.costUsd ≠ some q) ∧
      (∀ n : Nat, resp.session.totalTokens ≠ some n) ∧
      (∀ n : Nat, resp.session.durationMs ≠ some n) ∧
      (∀ n : Nat, resp.session.completedAt ≠ some n) :=
  getSessionState_optional_absent demoSt1.asStore ⟨"sess-123"⟩ demoSession
    (by decide) rfl rfl rfl rfl rfl

/-- C4: session status is monotonic. On a terminal session both
`UpdateSessionStatus` and `AppendEvent` fail with `InvalidState` (and, the
operations being pure functions returning errors, the store is left
unchanged rather than silently mutated); a successful `UpdateSessionStatus`
can only start from `running`, so every actual status change is
running → completed or running → failed; and a successful `AppendEvent`
never changes any session's status. -/
theorem session_status_monotonic (st : StoreState) (sid : String) :
    (∀ s, findSession st sid = some s → s.status.isTerminal = true →
      (∀ status cf, UpdateSessionStatus st sid status cf = .error .invalidState) ∧
      (∀ e, e.sessionId = sid → AppendEvent st e = .error .invalidState)) ∧
    (∀ status cf st', UpdateSessionStatus st sid status cf = .ok st' →
      ∀ s, findSession st sid = some s →
        s.status = .running ∧
        (status ≠ .running → status = .completed ∨ status = .failed)) ∧
    (∀ e st', AppendEvent st e = .ok st' →
      ∀ s' ∈ st'.sessions, ∃ s ∈ st.sessions, s'.id = s.id ∧ s'.status = s.status) := by
  refine ⟨?_, ?_, ?_⟩
  · intro s hs hterm
    constructor
    · intro status cf
      unfold UpdateSessionStatus
      rw [hs]
      simp [hterm]
    · intro e he
      unfold AppendEvent
      rw [he, hs]
      simp [hterm]
  · intro status cf st' hok s hs
    constructor
    · by_cases hterm : s.status.isTerminal = true
      · rw [UpdateSessionStatus_of_terminal hs hterm status cf] at hok
        exact Except.noConfusion hok
      · cases hst : s.status with
        | running => rfl
        | completed => rw [hst] at hterm; exact absurd rfl hterm
        | failed => rw [hst] at hterm; exact absurd rfl hterm
    · intro hne
      cases status with
      | running => exact absurd rfl hne
      | completed => exact Or.inl rfl
      | failed => exact Or.inr rfl
  · intro e st' hok s' hs'
    rw [AppendEvent_ok_sessions hok] at hs'
    rw [List.mem_map] at hs'
    obtain ⟨s, hsmem, hmap⟩ := hs'
    refine ⟨s, hsmem, ?_⟩
    by_cases hid : (s.id == e.sessionId) = true
    · rw [if_pos hid] at hmap
      rw [← hmap]
      exact ⟨rfl, rfl⟩
    · rw [if_neg hid] at hmap
      rw [← hmap]
      exact ⟨rfl, rfl⟩

/-- Witness for C4: the terminal session rejects both a status change and an
append with `InvalidState`, and a status update that succeeds starts from a
running session. -/
theorem session_status_monotonic_witness :
    UpdateSessionStatus demoTermSt "sess-done" .running demoCf =
      .error .invalidState ∧
    AppendEvent demoTermSt demoTermEvent = .error .invalidState ∧
    demoSession.status = .running := by
  have hupd : UpdateSessionStatus demoSt1 "sess-123" .completed demoCf =
      Except.ok ⟨[{ demoSession with
        status := .completed, completedAt := none,
        costUsd := none, totalTokens := none, durationMs := none,
        errorMessage := "" }], []⟩ := by rfl
  refine ⟨?_, ?_, ?_⟩
  · exact ((session_status_monotonic demoTermSt "sess-done").1 demoTermSession
      rfl rfl).1 .running demoCf
  · exact ((session_status_monotonic demoTermSt "sess-done").1 demoTermSession
      rfl rfl).2 demoTermEvent rfl
  · exact (((session_status_monotonic demoSt1 "sess-123").2.1 .completed demoCf
      _ hupd) demoSession rfl).1

/-- C5: a successful `HandleGetSessionState` returns the stored session
record unchanged, so every field (status, cost, tokens, duration,
completion time, error message, ...) round-trips exactly. -/
theorem getSessionState_roundtrip (cs : ConversationStore)
    (req : GetSessionStateRequest) (s : Session)
    (hreq : req.sessionId ≠ "") (hs : cs.getSession req.sessionId = .ok s) :
    HandleGetSessionState cs (some req) = .ok ⟨s⟩ := by
  simp [HandleGetSessionState, hreq, hs]

/-- Witness for C5: scenario C's completed session (cost 0.05, 1500 tokens,
600000 ms, populated completion time) and scenario D's failed session
(error message `Connection timeout`) round-trip exactly. -/
theorem getSessionState_roundtrip_witness :
    HandleGetSessionState demoStateSt.asStore (some ⟨"sess-c"⟩) =
      .ok ⟨demoCompleted⟩ ∧
    HandleGetSessionState demoStateSt.asStore (some ⟨"sess-f"⟩) =
      .ok ⟨demoFailed⟩ ∧
    demoCompleted.costUsd = some (0.05 : ℚ) ∧
    demoCompleted.totalTokens = some 1500 ∧
    demoCompleted.durationMs = some 600000 ∧
    demoCompleted.completedAt = some 600 ∧
    demoFailed.status = .failed ∧
    demoFailed.errorMessage = "Connection timeout" :=
  ⟨getSessionState_roundtrip demoStateSt.asStore ⟨"sess-c"⟩ demoCompleted
      (by decide) rfl,
   getSessionState_roundtrip demoStateSt.asStore ⟨"sess-f"⟩ demoFailed
      (by decide) rfl,
   rfl, rfl, rfl, rfl, rfl, rfl⟩

/-- C6: a decoded GetConversation request with both identifiers empty fails
with the contractual `either session_id or claude_session_id is required`
message, and the result is the same whatever the store is — no store
operation is consulted. -/
theorem getConversation_requires_identifier (cs cs' : ConversationStore) :
    HandleGetConversation cs (some ⟨"", ""⟩) =
      .error (.invalidRequest "either session_id or claude_session_id is required") ∧
    HandleGetConversation cs (some ⟨"", ""⟩) =
      HandleGetConversation cs' (some ⟨"", ""⟩) ∧
    containsStr
      ((HandlerError.invalidRequest
        "either session_id or claude_session_id is required").message)
      "either session_id or claude_session_id is required" := by
  refine ⟨by simp [HandleGetConversation], by simp [HandleGetConversation],
    [], [], by simp [HandlerError.message]⟩

/-- Witness for C6 (no hypotheses): instantiated at two distinct stores. -/
theorem getConversation_requires_identifier_witness :
    HandleGetConversation demoSt1.asStore (some ⟨"", ""⟩) =
      .error (.invalidRequest "either session_id or claude_session_id is required") :=
  (getConversation_requires_identifier demoSt1.asStore demoSt3.asStore).1

/-- C7: an undecodable payload makes both handlers fail with the
contractual `invalid request` message, with a result independent of the
store — the store is never invoked. -/
theorem undecodable_payload_invalid_request (cs cs' : ConversationStore) :
    HandleGetConversation cs none = .error (.invalidRequest "invalid request") ∧
    HandleGetSessionState cs none = .error (.invalidRequest "invalid request") ∧
    HandleGetConversation cs none = HandleGetConversation cs' none ∧
    HandleGetSessionState cs none = HandleGetSessionState cs' none ∧
    containsStr ((HandlerError.invalidRequest "invalid request").message)
      "invalid request" := by
  refine ⟨rfl, rfl, rfl, rfl, [], [], by simp [HandlerError.message]⟩

/-- Witness for C7 (no hypotheses): instantiated at two distinct stores. -/
theorem undecodable_payload_invalid_request_witness :
    HandleGetConversation demoSt1.asStore none =
      .error (.invalidRequest "invalid request") :=
  (undecodable_payload_invalid_request demoSt1.asStore demoSt3.asStore).1

/-- C8: a GetSessionState request with an empty `session_id` fails with the
contractual `session_id is required` message, with a result independent of
the store — the store is not called. -/
theorem getSessionState_requires_session_id (cs cs' : ConversationStore)
    (req : GetSessionStateRequest) (h : req.sessionId = "") :
    HandleGetSessionState cs (some req) =
      .error (.invalidRequest "session_id is required") ∧
    HandleGetSessionState cs (some req) = HandleGetSessionState cs' (some req) ∧
    containsStr ((HandlerError.invalidRequest "session_id is required").message)
      "session_id is required" := by
  refine ⟨by simp [HandleGetSessionState, h], by simp [HandleGetSessionState, h],
    [], [], by simp [HandlerError.message]⟩

/-- Witness for C8: the empty request fails identically on two stores. -/
theorem getSessionState_requires_session_id_witness :
    HandleGetSessionState demoSt1.asStore (some ⟨""⟩) =
      .error (.invalidRequest "session_id is required") :=
  (getSessionState_requires_session_id demoSt1.asStore demoStateSt.asStore
    ⟨""⟩ rfl).1

/-- C9: when the store's `GetSession` fails, `HandleGetSessionState` returns
the store error wrapped as `failed to get session: <cause>` — the message
contains the contractual prefix and the cause's own message, and the
underlying `StoreError` value itself is kept inside the returned error. -/
theorem getSessionState_wraps_store_error (cs : ConversationStore)
    (req : GetSessionStateRequest) (e : StoreError)
    (hreq : req.sessionId ≠ "") (he : cs.getSession req.sessionId = .error e) :
    HandleGetSessionState cs (some req) =
      .error (.storeError "failed to get session" e) ∧
    containsStr ((HandlerError.storeError "failed to get session" e).message)
      "failed to get session" ∧
    containsStr ((HandlerError.storeError "failed to get session" e).message)
      e.message := by
  refine ⟨?_, ?_, ?_⟩
  · simp [HandleGetSessionState, hreq, he]
  · exact ⟨[], (": " ++ e.message).data, by simp [HandlerError.message]⟩
  · exact ⟨("failed to get session" ++ ": ").data, [], by
      simp [HandlerError.message]⟩

/-- Witness for C9: an unknown session id surfaces the wrapped `NotFound`. -/
theorem getSessionState_wraps_store_error_witness :
    HandleGetSessionState demoSt1.asStore (some ⟨"nonexistent"⟩) =
      .error (.storeError "failed to get session" .notFound) :=
  (getSessionState_wraps_store_error demoSt1.asStore ⟨"nonexistent"⟩ .notFound
    (by decide) rfl).1

/-- C10: on every payload and every store, each handler yields exactly one
of a (necessarily well-typed, present) response of its fixed response type
or an error — never both, never neither. -/
theorem handlers_exactly_one_result (cs : ConversationStore)
    (p : Payload GetConversationRequest) (q : Payload GetSessionStateRequest) :
    (((∃ r, HandleGetConversation cs p = .ok r) ∧
        ¬∃ e, HandleGetConversation cs p = .error e) ∨
      ((∃ e, HandleGetConversation cs p = .error e) ∧
        ¬∃ r, HandleGetConversation cs p = .ok r)) ∧
    (((∃ r, HandleGetSessionState cs q = .ok r) ∧
        ¬∃ e, HandleGetSessionState cs q = .error e) ∨
      ((∃ e, HandleGetSessionState cs q = .error e) ∧
        ¬∃ r, HandleGetSessionState cs q = .ok r)) := by
  constructor
  · cases HandleGetConversation cs p with
    | ok r => exact Or.inl ⟨⟨r, rfl⟩, by simp⟩
    | error e => exact Or.inr ⟨⟨e, rfl⟩, by simp⟩
  · cases HandleGetSessionState cs q with
    | ok r => exact Or.inl ⟨⟨r, rfl⟩, by simp⟩
    | error e => exact Or.inr ⟨⟨e, rfl⟩, by simp⟩

/-- Witness for C10 (no hypotheses): instantiated at a concrete store and
payloads. -/
theorem handlers_exactly_one_result_witness :
    ((∃ r, HandleGetConversation demoSt3.asStore (some ⟨"sess-123", ""⟩) = .ok r) ∧
      ¬∃ e, HandleGetConversation demoSt3.asStore (some ⟨"sess-123", ""⟩) =
        .error e) ∨
    ((∃ e, HandleGetConversation demoSt3.asStore (some ⟨"sess-123", ""⟩) =
        .error e) ∧
      ¬∃ r, HandleGetConversation demoSt3.asStore (some ⟨"sess-123", ""⟩) =
        .ok r) :=
  (handlers_exactly_one_result demoSt3.asStore (some ⟨"sess-123", ""⟩) none).1

end HLD
